import Mathlib

/-!
Verification development for the obsidian-thought-completion plugin.

Shallow embedding conventions:
* JavaScript strings are modelled as `List Char` (UTF-16 code units; all inputs used
  in concrete theorems are ASCII, where the two views coincide).  `s.slice(a, b)`
  with `0 ≤ a ≤ b` becomes `(s.drop a).take (b - a)`, `indexOf`/`lastIndexOf` become
  explicit searches returning `Option Nat` (JavaScript's `-1` sentinel is translated
  at each use site), and `Math.max(0, a - b)` coincides with truncated `Nat`
  subtraction.
* The suggestion lifecycle (state machine in `src/state-machine.ts`, the ghost-text
  `StateField` in `src/editor/ghost-text.ts`, and the trigger `ViewPlugin` in
  `src/editor/triggers.ts`) is embedded as a single record `Machine` together with
  one total function per editor event / public method.  A CodeMirror update cycle
  (the `StateField.update` followed by the `ViewPlugin.update`) is one atomic step,
  which matches the single-threaded event loop of the host.
* The outstanding network request of `AIProvider.complete` is the only true
  concurrency.  Issued requests are kept in `Machine.inflight`, and the
  provider's single shared `abortController` field is tracked in
  `Machine.controller` (the id of the request it can cancel, or `none`):
  `AIProvider.abort` aborts exactly that request (an aborted `fetch` rejects
  with `AbortError`, which `complete` converts to a `null` resolution) and
  nulls the field; each `complete` call installs its own controller; and the
  `finally` of a settling `complete` call nulls the shared field
  unconditionally - also when the field meanwhile belongs to a newer call, so
  a request can become uncancellable.  The environment delivers each
  resolution at some later step (`Event.deliverEv`), reproducing the
  JavaScript microtask and macrotask interleavings used in the concrete
  traces below.
-/

namespace TC

/-- The five lifecycle states of `SuggestionState` in `src/types.ts`. -/
inductive Phase
  | idle
  | queued
  | predicting
  | suggesting
  | disabled
deriving DecidableEq, Repr

/-- The three values of `SuggestionCase` in `src/types.ts`. -/
inductive SuggestionCase
  | none
  | lower
  | firstLower
deriving DecidableEq, Repr

/-- The slice of `ThoughtCompletionSettings` consumed by the embedded code. -/
structure Settings where
  enabled : Bool
  manualTriggerOnly : Bool
  triggerOnPunctuation : Bool
  triggerOnNewline : Bool
  triggerDelay : Nat
  contextChars : Nat
  includeHeadingTrail : Bool
  apiKey : List Char
  apiEndpoint : List Char
  suggestionCase : SuggestionCase
deriving DecidableEq, Repr

/-- JavaScript regex `\s` membership, restricted to the ASCII range
(space, tab, line feed, vertical tab, form feed, carriage return). -/
def jsIsSpace (c : Char) : Bool :=
  c == ' ' || c == '\t' || c == '\n' || c == '\r' || c == Char.ofNat 11 || c == Char.ofNat 12

/-- JavaScript `String.prototype.trim`. -/
def jsTrim (l : List Char) : List Char :=
  ((l.dropWhile jsIsSpace).reverse.dropWhile jsIsSpace).reverse

/-- JavaScript `String.prototype.toLowerCase`, restricted to ASCII letters. -/
def jsToLower (c : Char) : Char :=
  if 65 ≤ c.toNat ∧ c.toNat ≤ 90 then Char.ofNat (c.toNat + 32) else c

/-- First index of `a`, as in JavaScript `indexOf` (with `none` for `-1`). -/
def idxOf? (a : Char) : List Char → Option Nat
  | [] => Option.none
  | c :: rest => if c = a then some 0 else (idxOf? a rest).map (fun i => i + 1)

/-- Last index of `a`, as in JavaScript `lastIndexOf` (with `none` for `-1`). -/
def lastIdxOf? (a : Char) (l : List Char) : Option Nat :=
  match idxOf? a l.reverse with
  | some i => some (l.length - 1 - i)
  | Option.none => Option.none

/-- Whether `pat` occurs in `doc` starting exactly at index `i`. -/
def matchesAt (doc pat : List Char) (i : Nat) : Bool :=
  (doc.drop i).take pat.length == pat

/-- JavaScript `doc.indexOf(pat, start)` for a substring `pat`
(with `none` for `-1`). -/
def indexOfFrom (doc pat : List Char) (start : Nat) : Option Nat :=
  (List.range (doc.length + 1)).find? (fun i => decide (start ≤ i) && matchesAt doc pat i)

/-- JavaScript `String.prototype.split('\n')`: always at least one (possibly
empty) piece, one extra piece per line feed. -/
def splitOnNl : List Char → List (List Char)
  | [] => [[]]
  | c :: rest =>
    if c = '\n' then [] :: splitOnNl rest
    else
      match splitOnNl rest with
      | [] => [[c]]
      | s :: ss => (c :: s) :: ss

/-! ### `src/ai/context.ts` -/

/-- The record returned by `extractContext` (the `Omit<CompletionContext, 'mode'>`
of the source; the source fields `prefix` and `suffix` are renamed `textBefore`
and `textAfter` here because the former are reserved words in Lean). -/
structure CtxData where
  textBefore : List Char
  textAfter : List Char
  headingTrail : List Char
  cursorPosition : Nat
deriving DecidableEq, Repr

/-- One step of the heading stack of `extractHeadingTrail`.  The stack is kept
most-recent-first, so the source's pop-while-top-level-is-deeper-or-equal loop
is `dropWhile` and `push` is `cons`.  `parse` is inlined below. -/
def parseHeading (line : List Char) : Option (Nat × List Char) :=
  -- `line.match(/^(#{1,6})\s+(.+)$/)`: with `k` leading hash marks the regex
  -- matches iff `1 ≤ k ≤ 6`, the next character exists and is whitespace, and at
  -- least one further character follows; `match[2].trim()` then equals the trim
  -- of everything after the first post-hash character (greedy `\s+` only moves
  -- whitespace between `match[2]` and the part `trim` removes anyway).
  let hashes := (line.takeWhile (fun c => c = '#')).length
  let rest := line.drop hashes
  if 1 ≤ hashes ∧ hashes ≤ 6 ∧
      (match rest.head? with | some c => jsIsSpace c | Option.none => false) = true ∧
      2 ≤ rest.length then
    some (hashes, jsTrim (rest.drop 1))
  else
    Option.none

/-- The body of the `for` loop of `extractHeadingTrail` in `src/ai/context.ts`. -/
def headingStep (hs : List (Nat × List Char)) (line : List Char) : List (Nat × List Char) :=
  match parseHeading line with
  | some (lvl, txt) => (lvl, txt) :: hs.dropWhile (fun h => lvl ≤ h.1)
  | Option.none => hs

/-- `extractHeadingTrail` of `src/ai/context.ts`. -/
def extractHeadingTrail (doc : List Char) (cursorPosition : Nat) : List Char :=
  let textBefore := doc.take cursorPosition
  let lines := splitOnNl textBefore
  let headings := (lines.foldl headingStep []).reverse
  match headings with
  | [] => []
  | _ => List.intercalate (" > ".toList) (headings.map (fun h => h.2))

/-- `extractContext` of `src/ai/context.ts`.  The source reads the document text
and the cursor offset from the `EditorView`; the embedding takes them directly. -/
def extractContext (doc : List Char) (cursorPosition contextChars : Nat)
    (includeHeadingTrail : Bool) : CtxData :=
  let pStart := cursorPosition - contextChars
  let p0 := (doc.drop pStart).take (cursorPosition - pStart)
  let p1 :=
    if pStart > 0 then
      match idxOf? '\n' p0 with
      | some i => if 0 < i ∧ i < 100 then p0.drop (i + 1) else p0
      | Option.none => p0
    else p0
  let sEnd := min doc.length (cursorPosition + contextChars / 3)
  let s0 := (doc.drop cursorPosition).take (sEnd - cursorPosition)
  let s1 :=
    if sEnd < doc.length then
      match lastIdxOf? '\n' s0 with
      | some i => if 0 < i then s0.take i else s0
      | Option.none => s0
    else s0
  { textBefore := p1
    textAfter := s1
    headingTrail := if includeHeadingTrail then extractHeadingTrail doc cursorPosition else []
    cursorPosition := cursorPosition }

/-- A line-leading triple backtick, the code-fence marker counted by
`isInCodeBlock` (regex `/^```/gm`). -/
def fenceMark : List Char := "```".toList

/-- `isInCodeBlock` of `src/ai/context.ts`. -/
def isInCodeBlock (doc : List Char) (cursorPosition : Nat) : Bool :=
  let textBefore := doc.take cursorPosition
  let openFences := ((splitOnNl textBefore).filter (fun line => line.take 3 == fenceMark)).length
  openFences % 2 == 1

/-- `isInFrontmatter` of `src/ai/context.ts`. -/
def isInFrontmatter (doc : List Char) (cursorPosition : Nat) : Bool :=
  if ¬(doc.take 4 == ("---\n".toList)) then false
  else
    match indexOfFrom doc ("\n---\n".toList) 4 with
    | Option.none =>
      -- `cursorPosition < doc.indexOf('\n', 4) + 100`, where a missing line feed
      -- yields JavaScript's -1
      let nlIdx : Int :=
        match indexOfFrom doc ['\n'] 4 with
        | some i => (i : Int)
        | Option.none => -1
      decide ((cursorPosition : Int) < nlIdx + 100)
    | some e => decide (cursorPosition ≤ e + 4)

/-! ### `src/ai/provider.ts` -/

/-- `cleanSuggestion` of `src/ai/provider.ts`: strip one symmetric layer of
wrapping quotes, strip the first recognized lead-in phrase, then trim. -/
def leadIns : List (List Char) :=
  ["Suggestion: ".toList, "Consider: ".toList, "Think about: ".toList,
   "Question: ".toList, "Try: ".toList]

def quoteChar : Char := Char.ofNat 34

def apostropheChar : Char := Char.ofNat 39

def cleanSuggestion (suggestion : List Char) : List Char :=
  let cleaned :=
    if (suggestion.head? = some quoteChar ∧ suggestion.getLast? = some quoteChar) ∨
        (suggestion.head? = some apostropheChar ∧ suggestion.getLast? = some apostropheChar) then
      (suggestion.drop 1).dropLast
    else suggestion
  let cleaned :=
    match leadIns.find? (fun p => cleaned.take p.length == p) with
    | some p => cleaned.drop p.length
    | Option.none => cleaned
  jsTrim cleaned

/-- `transformCase` of `src/ai/provider.ts`. -/
def transformCase (text : List Char) (caseType : SuggestionCase) : List Char :=
  if text = [] ∨ caseType = SuggestionCase.none then text
  else if caseType = SuggestionCase.lower then text.map jsToLower
  else if caseType = SuggestionCase.firstLower then
    match text with
    | [] => []
    | c :: rest =>
      match rest with
      | [] => [jsToLower c] -- `text.length === 1`: lowercase the only character
      | d :: _ =>
        -- `secondChar === secondChar.toLowerCase()`
        if jsToLower d = d then jsToLower c :: rest else c :: rest
  else text

/-- The possible outcomes of the `fetch` performed by `AIProvider.complete`.
`ok content` is a successful response whose parsed JSON yields
`data.choices?.[0]?.message?.content` (`none` when any of those fields is
missing); `malformedJson` is a body `response.json()` rejects on. -/
inductive FetchOutcome
  | ok (content : Option (List Char))
  | malformedJson
  | httpError (status : Nat) (body : List Char)
  | networkError
  | aborted
deriving DecidableEq, Repr

/-- `AIProvider.complete` of `src/ai/provider.ts` as a total function of the
settings and the fetch outcome.  The first component records whether the HTTP
request was issued at all; the second is the promised value (`none` = `null`).
Every throwing path of the source is inside the `try`, whose `catch` returns
`null`, so totality of this function is the embedding of "never throws". -/
def complete (st : Settings) (outcome : FetchOutcome) : Bool × Option (List Char) :=
  if st.apiKey = [] ∨ st.apiEndpoint = [] then (false, Option.none)
  else
    match outcome with
    | FetchOutcome.httpError _ _ => (true, Option.none)
    | FetchOutcome.malformedJson => (true, Option.none)
    | FetchOutcome.networkError => (true, Option.none)
    | FetchOutcome.aborted => (true, Option.none)
    | FetchOutcome.ok content =>
      match content with
      | Option.none => (true, Option.none)
      | some raw =>
        let suggestion := jsTrim raw
        if suggestion = [] then (true, Option.none) -- `if (!suggestion)`
        else (true, some (transformCase (cleanSuggestion suggestion) st.suggestionCase))

/-! ### The suggestion lifecycle: `src/state-machine.ts`, `src/editor/ghost-text.ts`
and `src/editor/triggers.ts` -/

/-- An issued completion request: the continuation of `predict` still waiting for
`aiProvider.complete` to resolve.  `captured` is `context.cursorPosition` from
`extractContext`; `aborted` means the request's `AbortController` was aborted,
so `complete` will resolve it to `null`. -/
structure PendingRequest where
  id : Nat
  captured : Nat
  aborted : Bool
deriving DecidableEq, Repr

/-- The `suggestion` value held by the `ghostTextState` `StateField`. -/
structure Overlay where
  text : List Char
  position : Nat
deriving DecidableEq, Repr

/-- The combined observable state: the `SuggestionStateMachine` (`phase`,
`timerPending` = `queueTimer !== null`), the trigger plugin's idle timer, the
provider's outstanding requests and its shared `abortController` field
(`controller` is the id of the request that field currently belongs to, or
`none`), the ghost-text `StateField` (`overlay`), and the editor document plus
cursor (`selection.main.head`). -/
structure Machine where
  phase : Phase
  timerPending : Bool
  idleTimerPending : Bool
  inflight : List PendingRequest
  controller : Option Nat
  overlay : Option Overlay
  doc : List Char
  nextId : Nat
  cursor : Nat
deriving DecidableEq, Repr

/-- Mark one request cancelled, as `AbortController.abort` does. -/
def abortReq (r : PendingRequest) : PendingRequest := { r with aborted := true }

/-- Mark the request with id `i` aborted, leaving the others untouched. -/
def abortById (i : Nat) (l : List PendingRequest) : List PendingRequest :=
  l.map (fun r => if r.id == i then abortReq r else r)

/-- `AIProvider.abort`: `if (this.abortController) { abort(); null it }`.  Only
the request the shared `abortController` field currently belongs to is
cancelled; a live request whose controller reference was already clobbered by
the `finally` of a superseded `complete` call (see `deliver`) is not. -/
def abortCurrent (m : Machine) : Machine :=
  match m.controller with
  | some i => { m with inflight := abortById i m.inflight, controller := Option.none }
  | Option.none => m

/-- `SuggestionStateMachine.cancelQueueTimer`. -/
def cancelQueueTimer (m : Machine) : Machine := { m with timerPending := false }

/-- Lines 301-319 of `SuggestionStateMachine.predict`: the continuation running
when `aiProvider.complete` resolves with `result` for a request whose captured
cursor offset is `captured`.  `showSuggestion` anchors the overlay at the live
cursor position. -/
def resolveDeliver (m : Machine) (captured : Nat) (result : Option (List Char)) : Machine :=
  if m.phase ≠ Phase.predicting then m
  else
    match result with
    | some text =>
      if m.cursor = captured then
        { m with overlay := some { text := text, position := m.cursor }
                 phase := Phase.suggesting }
      else { m with phase := Phase.idle }
    | Option.none => { m with phase := Phase.idle }

/-- The synchronous part of `SuggestionStateMachine.predict`: the guard, the
context extraction (only the captured cursor offset feeds back into the
lifecycle), and the issuing part of `aiProvider.complete`: it first calls
`abort()`; when the API key or the endpoint is missing it resolves `null`
before creating any controller (that immediate resolution runs before any
further event, so it is composed synchronously here); otherwise it installs a
fresh `AbortController` for the new request and issues the `fetch`. -/
def predictStart (st : Settings) (m : Machine) : Machine :=
  if m.phase ≠ Phase.predicting then m
  else
    let captured := m.cursor
    let m1 := abortCurrent m
    if st.apiKey = [] ∨ st.apiEndpoint = [] then
      resolveDeliver m1 captured Option.none
    else
      { m1 with inflight := m1.inflight ++ [⟨m1.nextId, captured, false⟩]
                controller := some m1.nextId
                nextId := m1.nextId + 1 }

/-- `SuggestionStateMachine.trigger`. -/
def trigger (st : Settings) (m : Machine) : Machine :=
  if m.phase = Phase.disabled then m
  else if st.manualTriggerOnly then m
  else if isInCodeBlock m.doc m.cursor then m
  else if isInFrontmatter m.doc m.cursor then m
  else
    let m1 :=
      if m.phase = Phase.queued then cancelQueueTimer m
      else if m.phase = Phase.predicting then abortCurrent m
      else if m.phase = Phase.suggesting then { m with overlay := Option.none }
      else m
    { m1 with phase := Phase.queued, timerPending := true }

/-- `SuggestionStateMachine.manualTrigger`. -/
def manualTrigger (st : Settings) (m : Machine) : Machine :=
  if m.phase = Phase.disabled then m
  else if isInCodeBlock m.doc m.cursor || isInFrontmatter m.doc m.cursor then m
  else
    let m1 := abortCurrent (cancelQueueTimer m)
    let m2 := if m1.phase = Phase.suggesting then { m1 with overlay := Option.none } else m1
    predictStart st { m2 with phase := Phase.predicting }

/-- `SuggestionStateMachine.cancelQueue` (the decoration itself is cleared by
the `StateField` on `docChanged`, which is modelled at the edit event). -/
def cancelQueue (m : Machine) : Machine :=
  if m.phase = Phase.queued then { m with timerPending := false, phase := Phase.idle }
  else if m.phase = Phase.predicting then { (abortCurrent m) with phase := Phase.idle }
  else if m.phase = Phase.suggesting then { m with phase := Phase.idle }
  else m

/-- `SuggestionStateMachine.dismiss` (the `requestAnimationFrame` deferral of
`clearSuggestion` is composed into the same step; no other event of the model
observes the window between the two). -/
def dismiss (m : Machine) : Machine :=
  if m.phase = Phase.suggesting then { m with phase := Phase.idle, overlay := Option.none }
  else m

/-- `SuggestionStateMachine.disable`. -/
def disable (m : Machine) : Machine :=
  let m1 := abortCurrent (cancelQueueTimer m)
  let m2 := if m1.phase = Phase.suggesting then { m1 with overlay := Option.none } else m1
  { m2 with phase := Phase.disabled }

/-- `SuggestionStateMachine.enable`. -/
def enable (m : Machine) : Machine :=
  if m.phase = Phase.disabled then { m with phase := Phase.idle } else m

/-- The phase effect of `SuggestionStateMachine.updateSettings` when the new
settings carry `enabled = newEnabled`. -/
def updateSettingsTransition (m : Machine) (newEnabled : Bool) : Machine :=
  if ¬newEnabled ∧ m.phase ≠ Phase.disabled then disable m
  else if newEnabled ∧ m.phase = Phase.disabled then enable m
  else m

/-- The `setTimeout` callback of `startQueueTimer` firing. -/
def queueTimerFire (st : Settings) (m : Machine) : Machine :=
  if ¬m.timerPending then m
  else
    let m1 := { m with timerPending := false }
    if m1.phase = Phase.queued then predictStart st { m1 with phase := Phase.predicting }
    else m1

/-- The `setTimeout` callback of the trigger plugin's `resetIdleTimer` firing. -/
def idleTimerFire (st : Settings) (m : Machine) : Machine :=
  if ¬m.idleTimerPending then m
  else
    let m1 := { m with idleTimerPending := false }
    if st.enabled && !st.manualTriggerOnly then trigger st m1 else m1

/-- The environment delivers the resolution of request `reqId`.  An aborted
request always resolves to `null` (`AbortError` is caught in `complete`);
otherwise it resolves to `payload`, the value `complete` produced from the
response.  The settling `complete` call runs its
`finally { this.abortController = null }` (provider.ts line 113), which nulls
the shared controller field unconditionally - also when the field meanwhile
belongs to a newer request, which thereby becomes uncancellable.  Then the
continuation of `predict` (`resolveDeliver`) runs. -/
def deliver (m : Machine) (reqId : Nat) (payload : Option (List Char)) : Machine :=
  match m.inflight.find? (fun r => r.id == reqId) with
  | Option.none => m
  | some r =>
    let m1 := { m with inflight := m.inflight.filter (fun q => ¬(q.id == reqId))
                       controller := Option.none }
    resolveDeliver m1 r.captured (if r.aborted then Option.none else payload)

/-- `lineAt(pos).from`: the index just after the last line feed before `pos`. -/
def lineFromAt (doc : List Char) (pos : Nat) : Nat :=
  match lastIdxOf? '\n' (doc.take pos) with
  | some i => i + 1
  | Option.none => 0

/-- `lineAt(pos).to`: the index of the next line feed at or after `pos`, or the
document length. -/
def lineToAt (doc : List Char) (pos : Nat) : Nat :=
  match indexOfFrom doc ['\n'] pos with
  | some i => i
  | Option.none => doc.length

/-- `TriggerPlugin.checkTriggers`.  `inserted` is the text the transaction
inserted when it was a user-typing (`input.type`) event, `none` otherwise. -/
def checkTriggers (st : Settings) (m : Machine) (inserted : Option (List Char)) : Machine :=
  let pos := m.cursor
  let lf := lineFromAt m.doc pos
  let lt := lineToAt m.doc pos
  let charBefore : Option Char := if lf < pos then m.doc.get? (pos - 1) else Option.none
  let punctFires :=
    st.triggerOnPunctuation &&
    (match charBefore with
     | some c =>
       (c == '.' || c == '!' || c == '?') &&
       (let charAfter : Option Char :=
          if pos < m.doc.length then m.doc.get? pos else Option.none
        match charAfter with
        | Option.none => true -- `!charAfter`
        | some c2 => jsIsSpace c2 || pos == lt)
     | Option.none => false)
  if punctFires then trigger st m
  else
    let newlineFires :=
      st.triggerOnNewline &&
      (match inserted with
       | some txt => txt.contains '\n'
       | Option.none => false)
    if newlineFires then trigger st m else m

/-- One CodeMirror update cycle for a document-changing transaction: the
`ghostTextState` field clears the suggestion on `docChanged`, then
`TriggerPlugin.update` runs (early-returning when disabled or manual-only,
otherwise `cancelQueue`, `resetIdleTimer` and the immediate-trigger checks).
`isTyping` compares the new length against the plugin's cached previous length,
which under fixed settings equals the previous document length. -/
def editEvent (st : Settings) (m : Machine) (newDoc : List Char) (newCursor : Nat)
    (inserted : Option (List Char)) : Machine :=
  let oldLen := m.doc.length
  let m1 := { m with doc := newDoc, cursor := newCursor, overlay := Option.none }
  if ¬st.enabled then m1
  else if st.manualTriggerOnly then m1
  else
    let m2 := cancelQueue m1
    let m3 := { m2 with idleTimerPending := true }
    if decide (oldLen < newDoc.length) then checkTriggers st m3 inserted else m3

/-- One CodeMirror update cycle for a pure selection change: the
`ghostTextState` field clears the suggestion when the cursor left its anchor,
then `TriggerPlugin.update` (after its early returns) calls `dismiss`. -/
def selectEvent (st : Settings) (m : Machine) (newCursor : Nat) : Machine :=
  let ov :=
    match m.overlay with
    | some o => if ¬(newCursor = o.position) then Option.none else some o
    | Option.none => Option.none
  let m1 := { m with cursor := newCursor, overlay := ov }
  if ¬st.enabled then m1
  else if st.manualTriggerOnly then m1
  else dismiss m1

/-- The external stimuli of one editing session. -/
inductive Event
  | edit (newDoc : List Char) (newCursor : Nat) (inserted : Option (List Char))
  | select (newCursor : Nat)
  | manualTrig
  | queueTimer
  | idleTimer
  | deliverEv (reqId : Nat) (payload : Option (List Char))
  | dismissCmd
  | disableCmd
  | enableCmd

/-- Dispatch one event. -/
def step (st : Settings) (m : Machine) : Event → Machine
  | Event.edit d c ins => editEvent st m d c ins
  | Event.select c => selectEvent st m c
  | Event.manualTrig => manualTrigger st m
  | Event.queueTimer => queueTimerFire st m
  | Event.idleTimer => idleTimerFire st m
  | Event.deliverEv i p => deliver m i p
  | Event.dismissCmd => dismiss m
  | Event.disableCmd => disable m
  | Event.enableCmd => enable m

/-- Execute a sequence of events. -/
def run (st : Settings) (m : Machine) (evs : List Event) : Machine :=
  evs.foldl (step st) m

/-- The state machine's constructor: `idle`, or `disabled` when the settings say
so; no timers, no requests, no overlay. -/
def initMachine (st : Settings) (doc : List Char) (cursor : Nat) : Machine :=
  { phase := if st.enabled then Phase.idle else Phase.disabled
    timerPending := false
    idleTimerPending := false
    inflight := []
    controller := Option.none
    overlay := Option.none
    doc := doc
    nextId := 0
    cursor := cursor }

/-! ### Concrete instances used by the witnesses and counterexamples -/

/-- A fully configured settings snapshot with automatic triggering permitted. -/
def sampleSettings : Settings :=
  { enabled := true
    manualTriggerOnly := false
    triggerOnPunctuation := true
    triggerOnNewline := true
    triggerDelay := 2000
    contextChars := 1500
    includeHeadingTrail := true
    apiKey := "k".toList
    apiEndpoint := "https://api".toList
    suggestionCase := SuggestionCase.none }

/-- The same snapshot with the manual-only flag set. -/
def manualOnlySettings : Settings := { sampleSettings with manualTriggerOnly := true }

/-- A settings snapshot with no API key configured. -/
def noKeySettings : Settings := { sampleSettings with apiKey := [] }

/-- A plain five-character document with the cursor at its end. -/
def m0 : Machine := initMachine sampleSettings ("Hello".toList) 5

/-- The initial machine under the manual-only settings. -/
def m0Manual : Machine := initMachine manualOnlySettings ("Hello".toList) 5

/-- A machine whose cursor sits inside an unterminated fenced code block. -/
def mCode : Machine := initMachine sampleSettings ("```\ncode".toList) 6

/-- A machine in `queued` with the delay timer pending, as produced by
`trigger` from `m0`. -/
def mQueued : Machine := trigger sampleSettings m0

/-- A machine in `predicting` with one live request, as produced by a manual
trigger from `m0`. -/
def mPred : Machine := run sampleSettings m0 [Event.manualTrig]

/-- A machine in `suggesting` with the overlay shown, as produced by a manual
trigger from `m0` whose request resolved with text at the unchanged cursor. -/
def mSuggesting : Machine :=
  run sampleSettings m0 [Event.manualTrig, Event.deliverEv 0 (some ("t".toList))]

/-- The initial machine under settings with `enabled = false`. -/
def mDisabled : Machine :=
  initMachine { sampleSettings with enabled := false } ("Hello".toList) 5

/-- A run reaching `queued` while a non-aborted request with a stale captured
offset is still outstanding: manual trigger twice (the second aborts the first
request and issues request 1 capturing offset 5), the first request's stale
`null` resolution flips the machine to `idle` without touching request 1, and a
typed `.` then auto-triggers back to `queued` with the cursor now at offset 6. -/
def c3Events : List Event :=
  [Event.manualTrig, Event.manualTrig, Event.deliverEv 0 Option.none,
   Event.edit ("Hello.".toList) 6 (some (".".toList)),
   Event.deliverEv 1 (some ("What next?".toList))]

/-- A run in which a manual trigger cancels nothing: after the stale-resolution
race (manual trigger twice, then request 0's `null` resolution, whose `finally`
nulls the shared controller that meanwhile belonged to request 1), a third
manual trigger finds `abortController === null`, so its `abort()` is a no-op
and request 1 stays live and uncancellable while request 2 is issued. -/
def c6RaceEvents : List Event :=
  [Event.manualTrig, Event.manualTrig, Event.deliverEv 0 Option.none, Event.manualTrig]

/-! ### Helper lemmas -/

theorem char_toNat_ofNat_lt (n : Nat) (h : n < 55296) : (Char.ofNat n).toNat = n := by
  unfold Char.ofNat
  rw [dif_pos (Or.inl h)]
  simp [Char.ofNatAux, Char.toNat, UInt32.toNat, BitVec.toNat_ofNat]

theorem jsToLower_idem (c : Char) : jsToLower (jsToLower c) = jsToLower c := by
  unfold jsToLower
  by_cases h : 65 ≤ c.toNat ∧ c.toNat ≤ 90
  · rw [if_pos h]
    have ht : (Char.ofNat (c.toNat + 32)).toNat = c.toNat + 32 :=
      char_toNat_ofNat_lt _ (by omega)
    rw [if_neg (by rw [ht]; omega)]
  · rw [if_neg h, if_neg h]

theorem map_jsToLower_idem (l : List Char) :
    (l.map jsToLower).map jsToLower = l.map jsToLower := by
  rw [List.map_map]
  exact List.map_congr_left (fun a _ => jsToLower_idem a)

/-! ### Claims -/

/-- Claim C1.  The invariant "the ghost-text overlay is non-absent iff the
phase is `suggesting`" is broken by the code: with the manual-only flag set,
`TriggerPlugin.update` returns before calling `cancelQueue`, so the edit that
follows a committed suggestion clears the overlay (the `StateField` clears it on
`docChanged`) while the phase stays `suggesting`.  The trace: manual trigger,
resolution with text at the unchanged cursor (overlay shown, phase
`suggesting`), then one typed character. -/
theorem c1_overlay_iff_suggesting_violated :
    (run manualOnlySettings m0Manual
      [Event.manualTrig, Event.deliverEv 0 (some ("t".toList)),
       Event.edit ("Hello!".toList) 6 (some ("!".toList))]).phase = Phase.suggesting ∧
    (run manualOnlySettings m0Manual
      [Event.manualTrig, Event.deliverEv 0 (some ("t".toList)),
       Event.edit ("Hello!".toList) 6 (some ("!".toList))]).overlay = Option.none := by
  decide

/-- Claim C2.  A stale resolution is not always a no-op.  Manual trigger twice:
the second call aborts request 0 and issues request 1, staying in `predicting`.
The aborted request 0 resolves to `null` on the microtask queue (in JavaScript
this continuation runs right after the second `manualTrigger` returns, i.e.
while request 1 is in flight); `predict`'s only staleness check -
`state !== 'predicting'` - passes because the machine is predicting *for
request 1*, so the stale resolution transitions the phase to `idle`, and
request 1's own later resolution (text, cursor unchanged) is then discarded. -/
theorem c2_stale_resolution_causes_transition :
    (run sampleSettings m0 [Event.manualTrig, Event.manualTrig]).phase = Phase.predicting ∧
    (run sampleSettings m0
      [Event.manualTrig, Event.manualTrig, Event.deliverEv 0 Option.none]).phase = Phase.idle ∧
    (run sampleSettings m0
      [Event.manualTrig, Event.manualTrig, Event.deliverEv 0 Option.none]).inflight =
      [{ id := 1, captured := 5, aborted := false }] ∧
    (run sampleSettings m0
      [Event.manualTrig, Event.manualTrig, Event.deliverEv 0 Option.none,
       Event.deliverEv 1 (some ("What next?".toList))]).overlay = Option.none := by
  decide

/-- Claim C3, counterexample to the claim as stated.  In the run `c3Events` the
final event is a resolution carrying suggestion text whose captured offset (5)
differs from the live cursor offset (6), yet the phase does not transition to
`idle`: the resolution arrives while the machine is `queued`, so the handler
returns without any transition and the phase stays `queued`. -/
theorem c3_counterexample :
    (run sampleSettings m0 c3Events).phase = Phase.queued ∧
    (run sampleSettings m0 c3Events).overlay = Option.none ∧
    ¬((run sampleSettings m0 c3Events).phase = Phase.idle) := by
  decide

/-- Claim C3, amended.  A resolution carrying suggestion text that is delivered
while the engine is still `predicting` renders no overlay and moves the phase
to `idle` whenever the captured cursor offset differs from the live one; a
resolution delivered in any other phase renders nothing and causes no state
change at all. -/
theorem c3_mismatched_cursor_never_renders (m : Machine) (captured : Nat) (t : List Char) :
    (m.phase = Phase.predicting → ¬(m.cursor = captured) →
      resolveDeliver m captured (some t) = { m with phase := Phase.idle }) ∧
    (¬(m.phase = Phase.predicting) →
      ∀ r : Option (List Char), resolveDeliver m captured r = m) := by
  constructor
  · intro hp hc
    simp [resolveDeliver, hp, hc]
  · intro hp r
    simp [resolveDeliver, hp]

/-- Claim C3, witness: the amended theorem applied to the concrete `predicting`
machine `mPred` (cursor at 5) and a resolution captured at offset 9. -/
theorem c3_mismatched_cursor_never_renders_witness :
    resolveDeliver mPred 9 (some ("t".toList)) = { mPred with phase := Phase.idle } :=
  (c3_mismatched_cursor_never_renders mPred 9 ("t".toList)).1 (by decide) (by decide)

/-- Claim C4, counterexample to the claim as stated: calling `trigger` while
`predicting` does not keep the engine in `predicting`; it moves to `queued`
and starts a fresh delay timer. -/
theorem c4_counterexample :
    (trigger sampleSettings mPred).phase = Phase.queued ∧
    (trigger sampleSettings mPred).timerPending = true ∧
    ¬((trigger sampleSettings mPred).phase = Phase.predicting) := by
  decide

/-- Claim C4, amended.  `trigger` while `predicting` (automatic triggering
permitted, cursor in an eligible region) performs exactly the provider's
`abort()` on the outstanding requests - cancelling the request the shared
controller currently belongs to and nulling the controller - then moves to
`queued` and restarts the delay timer; no new request is issued at this point
(the re-issue happens only when the fresh delay elapses). -/
theorem c4_trigger_while_predicting (st : Settings) (m : Machine)
    (hp : m.phase = Phase.predicting) (hm : st.manualTriggerOnly = false)
    (hc : isInCodeBlock m.doc m.cursor = false)
    (hf : isInFrontmatter m.doc m.cursor = false) :
    (trigger st m).phase = Phase.queued ∧
    (trigger st m).timerPending = true ∧
    (trigger st m).inflight = (abortCurrent m).inflight ∧
    (trigger st m).controller = Option.none ∧
    (trigger st m).nextId = m.nextId ∧
    (trigger st m).overlay = m.overlay := by
  cases hctrl : m.controller with
  | none => simp [trigger, abortCurrent, hp, hm, hc, hf, hctrl]
  | some i => simp [trigger, abortCurrent, abortById, hp, hm, hc, hf, hctrl]

/-- Claim C4, witness: the amended theorem applied to the concrete `predicting`
machine `mPred`. -/
theorem c4_trigger_while_predicting_witness :
    (trigger sampleSettings mPred).phase = Phase.queued ∧
    (trigger sampleSettings mPred).inflight = (abortCurrent mPred).inflight :=
  ⟨(c4_trigger_while_predicting sampleSettings mPred (by decide) (by decide)
      (by decide) (by decide)).1,
   (c4_trigger_while_predicting sampleSettings mPred (by decide) (by decide)
      (by decide) (by decide)).2.2.1⟩

/-- Claim C5, counterexample to the claim as stated: from `queued` (delay timer
pending, cursor at 5) a pure cursor move to offset 2 neither cancels the timer
nor moves the phase to `idle` - `dismiss` only acts in `suggesting`. -/
theorem c5_counterexample :
    (selectEvent sampleSettings mQueued 2).phase = Phase.queued ∧
    (selectEvent sampleSettings mQueued 2).timerPending = true ∧
    ¬((selectEvent sampleSettings mQueued 2).phase = Phase.idle) := by
  decide

/-- Claim C5, amended.  With automatic triggering permitted, a pure cursor move
dismisses only a shown suggestion: from `suggesting` it clears the overlay and
moves to `idle` without starting any countdown (both timers keep their previous
state) and without touching the outstanding requests; from every other phase it
leaves the phase, the delay timer, the idle timer and the outstanding requests
unchanged. -/
theorem c5_cursor_move_dismisses_only_suggesting (st : Settings) (m : Machine) (c : Nat)
    (he : st.enabled = true) (hm : st.manualTriggerOnly = false) :
    (m.phase = Phase.suggesting →
      (selectEvent st m c).phase = Phase.idle ∧
      (selectEvent st m c).overlay = Option.none ∧
      (selectEvent st m c).timerPending = m.timerPending ∧
      (selectEvent st m c).idleTimerPending = m.idleTimerPending ∧
      (selectEvent st m c).inflight = m.inflight) ∧
    (¬(m.phase = Phase.suggesting) →
      (selectEvent st m c).phase = m.phase ∧
      (selectEvent st m c).timerPending = m.timerPending ∧
      (selectEvent st m c).idleTimerPending = m.idleTimerPending ∧
      (selectEvent st m c).inflight = m.inflight) := by
  constructor <;> intro hph <;>
    cases hov : m.overlay with
    | none => by_cases hcp : c = 0 <;> simp [selectEvent, dismiss, he, hm, hph]
    | some o => by_cases hcp : c = o.position <;> simp [selectEvent, dismiss, he, hm, hph, hcp]

/-- Claim C5, witness: the amended theorem applied to the concrete `suggesting`
machine `mSuggesting` (suggestion anchored at offset 5) and a cursor move to
offset 2. -/
theorem c5_cursor_move_witness :
    (selectEvent sampleSettings mSuggesting 2).phase = Phase.idle ∧
    (selectEvent sampleSettings mSuggesting 2).overlay = Option.none :=
  ⟨((c5_cursor_move_dismisses_only_suggesting sampleSettings mSuggesting 2 rfl rfl).1
      (by decide)).1,
   ((c5_cursor_move_dismisses_only_suggesting sampleSettings mSuggesting 2 rfl rfl).1
      (by decide)).2.1⟩

/-- Claim C6, counterexample to the claim as stated, in two parts.  First, with
the cursor inside an unterminated fenced code block, `manualTrigger` is refused
(the machine is left entirely unchanged and never enters `predicting`), even
though the phase is `idle`, not `disabled`.  Second, `manualTrigger` does not
always cancel the in-flight request: after the `c6RaceEvents` run the third
manual trigger found `abortController === null` (request 0's settling `finally`
clobbered request 1's controller), so request 1 is still live and unaborted
alongside the freshly issued request 2, and request 1's later text resolution
at the unchanged cursor is committed - a stale overlay is shown and the phase
moves to `suggesting` while request 2 is still in flight. -/
theorem c6_counterexample :
    (manualTrigger sampleSettings mCode = mCode ∧
     ¬((manualTrigger sampleSettings mCode).phase = Phase.predicting)) ∧
    ((run sampleSettings m0 c6RaceEvents).inflight =
      [{ id := 1, captured := 5, aborted := false },
       { id := 2, captured := 5, aborted := false }] ∧
     (run sampleSettings m0
       (c6RaceEvents ++ [Event.deliverEv 1 (some ("T".toList))])).phase =
       Phase.suggesting ∧
     (run sampleSettings m0
       (c6RaceEvents ++ [Event.deliverEv 1 (some ("T".toList))])).overlay =
       some { text := "T".toList, position := 5 }) := by
  decide

/-- Claim C6, amended.  `manualTrigger` is refused while `disabled` and also
when the cursor sits inside a fenced code region or a front-matter block (the
same region checks as the automatic trigger); in every other phase - the
manual-only flag notwithstanding, which `manualTrigger` never consults - it
cancels the pending delay timer, performs the provider's `abort()` (cancelling
the request the shared controller still belongs to; a live request whose
controller reference was clobbered by a superseded call's `finally` is not
cancelled), immediately enters `predicting` and (with API key and endpoint
configured) issues the completion request with no delay. -/
theorem c6_manual_trigger_enters_predicting (st : Settings) (m : Machine)
    (hd : ¬(m.phase = Phase.disabled))
    (hc : isInCodeBlock m.doc m.cursor = false)
    (hf : isInFrontmatter m.doc m.cursor = false)
    (hk : ¬(st.apiKey = [])) (he : ¬(st.apiEndpoint = [])) :
    (manualTrigger st m).phase = Phase.predicting ∧
    (manualTrigger st m).timerPending = false ∧
    (manualTrigger st m).inflight =
      (abortCurrent m).inflight ++ [⟨m.nextId, m.cursor, false⟩] ∧
    (manualTrigger st m).controller = some m.nextId ∧
    (manualTrigger st m).nextId = m.nextId + 1 := by
  by_cases hs : m.phase = Phase.suggesting <;>
    cases hctrl : m.controller <;>
    simp [manualTrigger, predictStart, abortCurrent, abortById, cancelQueueTimer,
      hd, hc, hf, hk, he, hs, hctrl]

/-- Claim C6, witness: the amended theorem applied to the concrete idle machine
`m0`. -/
theorem c6_manual_trigger_witness :
    (manualTrigger sampleSettings m0).phase = Phase.predicting ∧
    (manualTrigger sampleSettings m0).inflight =
      (abortCurrent m0).inflight ++ [⟨m0.nextId, m0.cursor, false⟩] :=
  ⟨(c6_manual_trigger_enters_predicting sampleSettings m0 (by decide) (by decide)
      (by decide) (by decide) (by decide)).1,
   (c6_manual_trigger_enters_predicting sampleSettings m0 (by decide) (by decide)
      (by decide) (by decide) (by decide)).2.2.1⟩

/-- Claim C7.  `AIProvider.complete` is total (the embedding returns a value
for every settings snapshot and fetch outcome; every throwing path of the
source lies inside its `try`/`catch`): a missing API key or endpoint means the
request is never issued and the call resolves to `null`, and a non-success
response, malformed body, network error or abort each resolve to `null`. -/
theorem c7_complete_resolves_to_absence (st : Settings) (o : FetchOutcome) :
    ((st.apiKey = [] ∨ st.apiEndpoint = []) → complete st o = (false, Option.none)) ∧
    (∀ s b, o = FetchOutcome.httpError s b → (complete st o).2 = Option.none) ∧
    (o = FetchOutcome.malformedJson → (complete st o).2 = Option.none) ∧
    (o = FetchOutcome.networkError → (complete st o).2 = Option.none) ∧
    (o = FetchOutcome.aborted → (complete st o).2 = Option.none) := by
  by_cases hk : st.apiKey = [] ∨ st.apiEndpoint = [] <;>
    refine ⟨?_, ?_, ?_, ?_, ?_⟩ <;> intros <;> subst_vars <;> simp_all [complete]

/-- Claim C7, witness: concrete evaluations of each absence case through the
theorem. -/
theorem c7_complete_witness :
    complete noKeySettings FetchOutcome.aborted = (false, Option.none) ∧
    (complete sampleSettings (FetchOutcome.httpError 500 [])).2 = Option.none ∧
    (complete sampleSettings FetchOutcome.malformedJson).2 = Option.none ∧
    (complete sampleSettings FetchOutcome.networkError).2 = Option.none ∧
    (complete sampleSettings FetchOutcome.aborted).2 = Option.none :=
  ⟨(c7_complete_resolves_to_absence noKeySettings FetchOutcome.aborted).1 (Or.inl rfl),
   (c7_complete_resolves_to_absence sampleSettings _).2.1 500 [] rfl,
   (c7_complete_resolves_to_absence sampleSettings _).2.2.1 rfl,
   (c7_complete_resolves_to_absence sampleSettings _).2.2.2.1 rfl,
   (c7_complete_resolves_to_absence sampleSettings _).2.2.2.2 rfl⟩

/-- Claim C8.  `extractContext` is a pure function of (document text, cursor
offset, budget, heading-trail flag) - equal inputs give equal outputs - and
after boundary trimming the returned before-cursor window has length at most
the budget and the after-cursor window has length at most `budget / 3`. -/
theorem c8_extractContext_pure_and_bounded (doc : List Char) (cpos B : Nat) (incl : Bool) :
    extractContext doc cpos B incl = extractContext doc cpos B incl ∧
    (extractContext doc cpos B incl).textBefore.length ≤ B ∧
    (extractContext doc cpos B incl).textAfter.length ≤ B / 3 := by
  refine ⟨rfl, ?_, ?_⟩
  · have hp0 : ((doc.drop (cpos - B)).take (cpos - (cpos - B))).length ≤ B := by
      rw [List.length_take]; omega
    simp only [extractContext]
    split
    · split
      · split
        · rw [List.length_drop]; omega
        · exact hp0
      · exact hp0
    · exact hp0
  · have hs0 : ((doc.drop cpos).take (min doc.length (cpos + B / 3) - cpos)).length ≤ B / 3 := by
      rw [List.length_take]; omega
    simp only [extractContext]
    split
    · split
      · split
        · rw [List.length_take]; omega
        · exact hs0
      · exact hs0
    · exact hs0

/-- Claim C9.  The output case policy is idempotent: applying `transformCase`
twice with the same policy yields the same result as applying it once. -/
theorem c9_transformCase_idempotent (s : List Char) (p : SuggestionCase) :
    transformCase (transformCase s p) p = transformCase s p := by
  cases p with
  | none => simp [transformCase]
  | lower =>
    cases s with
    | nil => simp [transformCase]
    | cons a t => simp [transformCase, jsToLower_idem]
  | firstLower =>
    cases s with
    | nil => simp [transformCase]
    | cons a t =>
      cases t with
      | nil => simp [transformCase, jsToLower_idem]
      | cons d u =>
        by_cases hd : jsToLower d = d <;>
          simp [transformCase, hd, jsToLower_idem]

/-- Claim C10.  `disabled` is absorbing for `trigger`, `manualTrigger`,
`cancelQueue` and `dismiss` (each leaves the whole machine, hence phase and
overlay, unchanged), and exactly `enable` - or a settings update carrying
`enabled = true` - moves the phase from `disabled` to `idle`. -/
theorem c10_disabled_absorbing (st : Settings) (m : Machine)
    (h : m.phase = Phase.disabled) :
    trigger st m = m ∧ manualTrigger st m = m ∧ cancelQueue m = m ∧ dismiss m = m ∧
    enable m = { m with phase := Phase.idle } ∧
    updateSettingsTransition m true = { m with phase := Phase.idle } := by
  refine ⟨?_, ?_, ?_, ?_, ?_, ?_⟩ <;>
    simp [trigger, manualTrigger, cancelQueue, dismiss, enable,
      updateSettingsTransition, h]

/-- Claim C10, witness: the theorem applied to the concrete machine created
under `enabled = false`. -/
theorem c10_disabled_absorbing_witness :
    trigger sampleSettings mDisabled = mDisabled ∧
    enable mDisabled = { mDisabled with phase := Phase.idle } :=
  ⟨(c10_disabled_absorbing sampleSettings mDisabled rfl).1,
   (c10_disabled_absorbing sampleSettings mDisabled rfl).2.2.2.2.1⟩

end TC
